import Mathlib

/-!
Verification model of the `uber_ride_tracker` Home Assistant integration,
shallowly embedding the token manager (`oauth.py`), the REST client
(`api.py`) and the polling coordinator (`coordinator.py`).

JSON values are modelled by the inductive `Json`; Python `dict.get`,
truthiness and dictionary update are modelled by explicit helpers.
Numeric JSON literals are modelled as integers (no claim depends on
fractional values).  Exceptions are modelled with `Except`.
-/

namespace UberRideTracker

/-- JSON values as handled by the integration (Python dicts become
association lists preserving insertion order, as Python dicts do). -/
inductive Json where
  | null
  | bool (b : Bool)
  | num (n : Int)
  | str (s : String)
  | arr (elems : List Json)
  | obj (entries : List (String × Json))

/-- Structural equality on JSON values, mirroring Python `==` on the value
shapes the integration compares (statuses are strings or `None`). -/
def Json.beq : Json → Json → Bool
  | .null, .null => true
  | .bool a, .bool b => a == b
  | .num a, .num b => a == b
  | .str a, .str b => a == b
  | .arr as, .arr bs => beqList as bs
  | .obj as, .obj bs => beqEntries as bs
  | _, _ => false
where
  beqList : List Json → List Json → Bool
    | [], [] => true
    | a :: as, b :: bs => Json.beq a b && beqList as bs
    | _, _ => false
  beqEntries : List (String × Json) → List (String × Json) → Bool
    | [], [] => true
    | (ka, va) :: as, (kb, vb) :: bs => ka == kb && Json.beq va vb && beqEntries as bs
    | _, _ => false

instance : BEq Json := ⟨Json.beq⟩

/-- Python truthiness of a JSON value (`if ride_data:` etc.). -/
def Json.truthy : Json → Bool
  | .null => false
  | .bool b => b
  | .num n => n != 0
  | .str s => !s.isEmpty
  | .arr elems => !elems.isEmpty
  | .obj entries => !entries.isEmpty

/-- Key lookup in a Python dict (association list). -/
def lookupKey : List (String × Json) → String → Option Json
  | [], _ => none
  | (k, v) :: rest, key => if k == key then some v else lookupKey rest key

/-- Python `key in dict`. -/
def containsKey (entries : List (String × Json)) (key : String) : Bool :=
  (lookupKey entries key).isSome

/-- Python `dict[key] = value`: replace in place, or append a new entry. -/
def setKey : List (String × Json) → String → Json → List (String × Json)
  | [], key, v => [(key, v)]
  | (k, w) :: rest, key, v =>
      if k == key then (key, v) :: rest else (k, w) :: setKey rest key v

/-- Python exceptions raised by the code paths we model. -/
inductive PyErr where
  | attributeError
  | typeError
  | valueError
deriving DecidableEq

/-- Python `value.get(key, default)`: succeeds on dicts (returning the stored
value even when it is `None`, the default only when the key is absent) and
raises `AttributeError` on any non-dict receiver. -/
def Json.get (j : Json) (key : String) (default : Json) : Except PyErr Json :=
  match j with
  | .obj entries => .ok ((lookupKey entries key).getD default)
  | _ => .error .attributeError

-- Constants from const.py.

def UPDATE_INTERVAL_ACTIVE : Nat := 10
def UPDATE_INTERVAL_INACTIVE : Nat := 60
def UPDATE_INTERVAL_ERROR : Nat := 300

def RIDE_STATUS_PROCESSING : String := "processing"
def RIDE_STATUS_ACCEPTED : String := "accepted"
def RIDE_STATUS_ARRIVING : String := "arriving"
def RIDE_STATUS_IN_PROGRESS : String := "in_progress"

def ACTIVE_RIDE_STATUSES : List String :=
  [RIDE_STATUS_PROCESSING, RIDE_STATUS_ACCEPTED, RIDE_STATUS_ARRIVING,
   RIDE_STATUS_IN_PROGRESS]

def RATE_LIMIT_CALLS : Int := 2000
def RATE_LIMIT_WINDOW : Int := 3600

def API_VERSION : String := "v1.2"

def ENDPOINT_CURRENT_REQUEST : String := "/" ++ API_VERSION ++ "/requests/current"

/-- Python `status in ACTIVE_RIDE_STATUSES` (a JSON value compared by `==`
against each string in the list; non-strings never match). -/
def inActiveStatuses (v : Json) : Bool :=
  ACTIVE_RIDE_STATUSES.any (fun s => v == Json.str s)

/-- Model of `UberAPI.parse_ride_data` (api.py lines 177-247).  Every Python
`x.get(...)` is a monadic step that raises `AttributeError` when `x` is not
a dict, exactly as CPython would. -/
def parse_ride_data (ride_data : Json) : Except PyErr Json := do
  if !ride_data.truthy then
    return .obj []
  -- Extract driver information
  let driver := (← ride_data.get "driver" (.obj []))
  let driver_info : Json := .obj
    [("name", ← driver.get "name" .null),
     ("phone_number", ← driver.get "phone_number" .null),
     ("sms_number", ← driver.get "sms_number" .null),
     ("rating", ← driver.get "rating" .null),
     ("picture_url", ← driver.get "picture_url" .null)]
  -- Extract vehicle information
  let vehicle := (← ride_data.get "vehicle" (.obj []))
  let vehicle_info : Json := .obj
    [("make", ← vehicle.get "make" .null),
     ("model", ← vehicle.get "model" .null),
     ("license_plate", ← vehicle.get "license_plate" .null),
     ("picture_url", ← vehicle.get "picture_url" .null),
     ("color", ← vehicle.get "color" .null)]
  -- Extract location information
  let location := (← ride_data.get "location" (.obj []))
  let pickup := (← ride_data.get "pickup" (.obj []))
  let destination := (← ride_data.get "destination" (.obj []))
  -- Calculate progress
  let status := (← ride_data.get "status" .null)
  let progress : Int :=
    if status == Json.str "completed" then 100
    else if status == Json.str "in_progress" && location.truthy then 50
    else 0
  -- Parse the response
  let parsed_data : Json := .obj
    [("request_id", ← ride_data.get "request_id" .null),
     ("product_id", ← ride_data.get "product_id" .null),
     ("status", status),
     ("driver", driver_info),
     ("vehicle", vehicle_info),
     ("pickup", .obj
       [("latitude", ← pickup.get "latitude" .null),
        ("longitude", ← pickup.get "longitude" .null),
        ("address", ← pickup.get "address" .null),
        ("eta", ← pickup.get "eta" .null)]),
     ("destination", .obj
       [("latitude", ← destination.get "latitude" .null),
        ("longitude", ← destination.get "longitude" .null),
        ("address", ← destination.get "address" .null),
        ("eta", ← destination.get "eta" .null)]),
     ("location", .obj
       [("latitude", ← location.get "latitude" .null),
        ("longitude", ← location.get "longitude" .null),
        ("bearing", ← location.get "bearing" .null)]),
     ("surge_multiplier", ← ride_data.get "surge_multiplier" (.num 1)),
     ("fare", ← ride_data.get "fare" .null),
     ("shared", ← ride_data.get "shared" (.bool false)),
     ("progress_percentage", .num progress)]
  return parsed_data

/-- Python `d.get(key)` (default `None`) on a receiver that is a dict by
construction; non-dict receivers yield `None` (unreachable in our uses). -/
def Json.dictGet (j : Json) (key : String) : Json :=
  match j with
  | .obj entries => (lookupKey entries key).getD .null
  | _ => .null

/-- Python `d[key] = v` on a receiver that is a dict by construction. -/
def Json.setObjKey : Json → String → Json → Json
  | .obj entries, key, v => .obj (setKey entries key v)
  | j, _, _ => j

/-- Python `str(v)` as used in error-message interpolation (containers are
abbreviated; no claim depends on their rendering). -/
def Json.pyStr : Json → String
  | .null => "None"
  | .bool true => "True"
  | .bool false => "False"
  | .num n => toString n
  | .str s => s
  | .arr _ => "<list>"
  | .obj _ => "<dict>"

-- ## Token manager (oauth.py, `UberOAuthManager`)

/-- The `_token_data` dict held by `UberOAuthManager`. -/
abbrev TokenData := List (String × Json)

def CONF_ACCESS_TOKEN : String := "access_token"
def CONF_REFRESH_TOKEN : String := "refresh_token"
def CONF_TOKEN_EXPIRES : String := "token_expires"

/-- Property `UberOAuthManager.access_token`: `_token_data.get(CONF_ACCESS_TOKEN, "")`. -/
def access_token (td : TokenData) : Json :=
  (lookupKey td CONF_ACCESS_TOKEN).getD (.str "")

/-- Property `UberOAuthManager.refresh_token`: `_token_data.get(CONF_REFRESH_TOKEN, "")`. -/
def refresh_token (td : TokenData) : Json :=
  (lookupKey td CONF_REFRESH_TOKEN).getD (.str "")

/-- Model of `UberOAuthManager.is_token_expired` (oauth.py lines 153-164).  Datetimes
are modelled as integer POSIX seconds; a stored valid isoformat expiry
string is represented by `Json.num t`.  The source returns `True` when the
entry is absent or falsy and when `datetime.fromisoformat` raises
(`ValueError`/`TypeError`); all those cases are the non-`num` branches
here.  A 5-minute (300 s) safety margin is applied before the comparison. -/
def is_token_expired (td : TokenData) (now : Int) : Bool :=
  match lookupKey td CONF_TOKEN_EXPIRES with
  | some (.num expires) => decide (now ≥ expires - 300)
  | _ => true

/-- The aiohttp client-error family that `async_refresh_access_token`
re-raises: `raise_for_status` produces a `ClientResponseError` carrying the
HTTP status and reason phrase (not the response body); transport failures
produce other `ClientError`s. -/
inductive ClientErr where
  | responseError (status : Nat) (message : String)
  | transport (message : String)
deriving DecidableEq

/-- Failure outcomes of `async_refresh_access_token`: the explicit
`ValueError` guard, a re-raised aiohttp `ClientError`, or an unhandled
Python exception (e.g. `.get` on a non-dict body, `timedelta` on a
non-numeric `expires_in`). -/
inductive RefreshErr where
  | valueError (message : String)
  | clientError (e : ClientErr)
  | pyError (e : PyErr)
deriving DecidableEq

/-- Outcome of the token-endpoint POST performed by the refresh. -/
inductive PostOutcome where
  | response (status : Nat) (body : Json)
  | transportFailure (message : String)

/-- Model of `UberOAuthManager.async_refresh_access_token` (oauth.py lines 172-207):
guards on a missing refresh token, POSTs to the token endpoint,
`raise_for_status()`s non-2xx responses, then overwrites the access token,
overwrites the refresh token only when the response contains one, and
stores the new expiry `now + expires_in` (default 3600 s). -/
def async_refresh_access_token (td : TokenData) (now : Int) (out : PostOutcome) :
    Except RefreshErr TokenData :=
  if !(refresh_token td).truthy then
    .error (.valueError "No refresh token available")
  else
    match out with
    | .transportFailure m => .error (.clientError (.transport m))
    | .response status body =>
      if 400 ≤ status then
        .error (.clientError (.responseError status "HTTP error"))
      else
        match body with
        | .obj entries =>
          let td := setKey td CONF_ACCESS_TOKEN
            ((lookupKey entries "access_token").getD .null)
          let td := if containsKey entries "refresh_token" then
              setKey td CONF_REFRESH_TOKEN
                ((lookupKey entries "refresh_token").getD .null)
            else td
          match (lookupKey entries "expires_in").getD (.num 3600) with
          | .num expires_in =>
              .ok (setKey td CONF_TOKEN_EXPIRES (.num (now + expires_in)))
          | _ => .error (.pyError .typeError)
        | _ => .error (.pyError .attributeError)

/-- Model of `UberOAuthManager.async_ensure_valid_token` (oauth.py lines 166-170),
instrumented with a flag recording whether the refresh call was performed
(the source performs it exactly when `is_token_expired()` holds). -/
def async_ensure_valid_token (td : TokenData) (now : Int) (out : PostOutcome) :
    Except RefreshErr (Bool × TokenData × Json) :=
  if is_token_expired td now then
    match async_refresh_access_token td now out with
    | .error e => .error e
    | .ok td2 => .ok (true, td2, access_token td2)
  else
    .ok (false, td, access_token td)

-- ## REST client (api.py, `UberAPI`)

/-- The `UberAPIError` taxonomy of api.py (`UberRateLimitError`,
`UberAuthenticationError`, `UberNoActiveRideError` are subclasses). -/
inductive UberErr where
  | rateLimit (message : String)
  | auth (message : String)
  | noActiveRide (message : String)
  | api (message : String)
deriving DecidableEq

def UberErr.text : UberErr → String
  | .rateLimit m => m
  | .auth m => m
  | .noActiveRide m => m
  | .api m => m

def PyErr.text : PyErr → String
  | .attributeError => "AttributeError"
  | .typeError => "TypeError"
  | .valueError => "ValueError"

/-- An error escaping `_async_request` or `parse_ride_data`: either an
`UberAPIError` or an unhandled Python exception (caught downstream only by
the coordinator's generic handler). -/
inductive RequestErr where
  | uber (e : UberErr)
  | py (e : PyErr)
deriving DecidableEq

/-- The client's local rate-limit bookkeeping
(`_rate_limit_remaining`, `_rate_limit_reset`). -/
structure RateLimitState where
  remaining : Int
  reset : Int
deriving DecidableEq

/-- Outcome of the HTTP request issued by `_async_request`: a response
(status, JSON body, optional `X-Rate-Limit-Remaining` /
`X-Rate-Limit-Reset` headers, modelled already parsed to integers) or a
transport-level failure (`asyncio.TimeoutError` / `aiohttp.ClientError`). -/
inductive HttpOutcome where
  | response (status : Nat) (body : Json) (rlRemaining : Option Int) (rlReset : Option Int)
  | timeout
  | clientError (message : String)

/-- The response-processing part of `_async_request` (api.py lines
100-137): update rate-limit state from headers, map HTTP status to the
error taxonomy (401, 429, 404 — special-cased on the current-ride
endpoint — and other >= 400), wrap transport failures as `UberAPIError`. -/
def handleResponse (st : RateLimitState) (endpoint : String) (out : HttpOutcome) :
    RateLimitState × Except RequestErr Json :=
  match out with
  | .timeout => (st, .error (.uber (.api "Request timeout")))
  | .clientError m => (st, .error (.uber (.api ("Request failed: " ++ m))))
  | .response status body rlRemaining rlReset =>
    let st : RateLimitState :=
      { remaining := rlRemaining.getD st.remaining,
        reset := rlReset.getD st.reset }
    if status == 401 then
      (st, .error (.uber (.auth "Authentication failed")))
    else if status == 429 then
      (st, .error (.uber (.rateLimit "Rate limited")))
    else if status == 404 then
      if endpoint == ENDPOINT_CURRENT_REQUEST then
        (st, .error (.uber (.noActiveRide "No active ride found")))
      else
        (st, .error (.uber (.api ("Resource not found: " ++ endpoint))))
    else if 400 ≤ status then
      match body with
      | .obj entries =>
        let msg := match lookupKey entries "message" with
          | some v => v.pyStr
          | none => "HTTP " ++ toString status
        (st, .error (.uber (.api ("API error: " ++ msg))))
      | _ => (st, .error (.py .attributeError))
    else
      (st, .ok body)

/-- Model of `UberAPI._async_request` (api.py lines 71-137): the local rate-limit
gate — fail fast with `UberRateLimitError` while the budget is exhausted
and the window has not elapsed, reset the budget to the full call count
and a fresh window once it has — followed by the HTTP call.  The
`async_ensure_valid_token` step between the gate and the call is modelled
separately in the oauth section (its failures propagate raw; no claim
spans both), so the HTTP outcome is taken as a parameter. -/
def async_request (st : RateLimitState) (now : Int) (endpoint : String)
    (out : HttpOutcome) : RateLimitState × Except RequestErr Json :=
  if st.remaining ≤ 0 then
    if now < st.reset then
      (st, .error (.uber (.rateLimit
        ("Rate limited for " ++ toString (st.reset - now) ++ " seconds"))))
    else
      handleResponse
        { remaining := RATE_LIMIT_CALLS, reset := now + RATE_LIMIT_WINDOW }
        endpoint out
  else
    handleResponse st endpoint out

/-- Model of `UberAPI.async_get_current_ride` (api.py lines 139-148): requests the
current-ride endpoint, converting `UberNoActiveRideError` to `None` and
re-raising every other error. -/
def async_get_current_ride (st : RateLimitState) (now : Int) (out : HttpOutcome) :
    RateLimitState × Except RequestErr (Option Json) :=
  match async_request st now ENDPOINT_CURRENT_REQUEST out with
  | (st2, .ok j) => (st2, .ok (some j))
  | (st2, .error (.uber (.noActiveRide _))) => (st2, .ok none)
  | (st2, .error e) => (st2, .error e)

-- ## Polling coordinator (coordinator.py, `UberRideCoordinator`)

/-- Constant `_max_error_count` (coordinator.py line 35). -/
def max_error_count : Nat := 3

/-- Coordinator state: `_error_count`, `update_interval` (seconds),
`_last_status` (`None` as `Json.null`), and the framework-held `data`
snapshot published by the last successful tick. -/
structure CoordState where
  error_count : Nat
  update_interval : Nat
  last_status : Json
  data : Option Json

/-- Shared body of the coordinator's exception handlers
(coordinator.py lines 122-131 and 133-140, which differ only in the
message): increment the error counter, escalate the interval at the
threshold, and raise `UpdateFailed` with the given message. -/
def coordinatorErrorStep (st : CoordState) (msg : String) :
    CoordState × Except String Json :=
  let st := { st with error_count := st.error_count + 1 }
  let st := if st.error_count ≥ max_error_count then
      { st with update_interval := UPDATE_INTERVAL_ERROR }
    else st
  (st, .error msg)

/-- The single successful-return of the active-ride path
(coordinator.py lines 94-98), reached from each arm of the model's
detail-fetch analysis. -/
def publishRide (st : CoordState) (parsed : Json) (tnow : Int) :
    CoordState × Except String Json :=
  (st, .ok (.obj [("ride", parsed), ("has_active_ride", .bool true),
                  ("last_update", .num tnow)]))

/-- One tick: `UberRideCoordinator._async_update_data` (coordinator.py
lines 44-140).  `fetch` is the result of `async_get_current_ride`;
`receipt` and `mapData` are the results of the opportunistic detail
fetches (consulted only on the active-ride path); `tnow` is the wall clock
used for `last_update`.  The inner handlers at lines 83 and 91 catch only
`UberAPIError`, so a plain Python exception from a detail fetch (a `.py`
error, e.g. `AttributeError` from `error_data.get` on a non-dict error
body in api.py line 127) escapes them and reaches `except Exception`,
failing the tick after the status and interval were already updated; an
exception from the receipt fetch also skips the map fetch entirely.  On
failure the returned string is the `UpdateFailed` message. -/
def async_update_data (st : CoordState) (fetch : Except RequestErr (Option Json))
    (receipt : Except RequestErr Json) (mapData : Except RequestErr Json) (tnow : Int) :
    CoordState × Except String Json :=
  -- "# Reset error count on successful update" — executed at the top of
  -- the try block, before the fetch (coordinator.py line 48)
  let st := { st with error_count := 0 }
  match fetch with
  | .error (.uber (.noActiveRide _)) =>
      -- `except UberNoActiveRideError` (lines 111-120)
      let st := { st with last_status := .null,
                          update_interval := UPDATE_INTERVAL_INACTIVE }
      (st, .ok (.obj [("ride", .null), ("has_active_ride", .bool false),
                      ("last_update", .num tnow)]))
  | .error (.uber err) =>
      -- `except UberAPIError` (lines 122-131)
      coordinatorErrorStep st ("Error communicating with Uber API: " ++ err.text)
  | .error (.py err) =>
      -- `except Exception` (lines 133-140)
      coordinatorErrorStep st ("Unexpected error: " ++ err.text)
  | .ok rideOpt =>
      let ride_data := rideOpt.getD .null
      if ride_data.truthy then
        match parse_ride_data ride_data with
        | .error perr =>
            -- a parsing exception reaches `except Exception` (lines 133-140)
            coordinatorErrorStep st ("Unexpected error: " ++ perr.text)
        | .ok parsed =>
            let current_status := parsed.dictGet "status"
            -- Log status changes (lines 59-65)
            let st := if current_status != st.last_status then
                { st with last_status := current_status }
              else st
            -- Adjust update interval based on ride status (lines 67-73)
            let st := if inActiveStatuses current_status then
                { st with update_interval := UPDATE_INTERVAL_ACTIVE }
              else
                { st with update_interval := UPDATE_INTERVAL_INACTIVE }
            -- Get additional details if ride is active (lines 75-92):
            -- each inner `except UberAPIError` swallows only `.uber` errors
            if inActiveStatuses current_status then
              let request_id := parsed.dictGet "request_id"
              if request_id.truthy then
                match receipt with
                | .error (.py perr) =>
                    -- escapes the inner handler, reaches `except Exception`
                    coordinatorErrorStep st ("Unexpected error: " ++ perr.text)
                | .error (.uber _) =>
                    match mapData with
                    | .error (.py perr) =>
                        coordinatorErrorStep st ("Unexpected error: " ++ perr.text)
                    | .error (.uber _) => publishRide st parsed tnow
                    | .ok map_data =>
                        publishRide st (parsed.setObjKey "map" map_data) tnow
                | .ok receipt_data =>
                    let parsed := parsed.setObjKey "receipt" receipt_data
                    match mapData with
                    | .error (.py perr) =>
                        coordinatorErrorStep st ("Unexpected error: " ++ perr.text)
                    | .error (.uber _) => publishRide st parsed tnow
                    | .ok map_data =>
                        publishRide st (parsed.setObjKey "map" map_data) tnow
              else publishRide st parsed tnow
            else publishRide st parsed tnow
      else
        -- No active ride (lines 100-109)
        let st := { st with last_status := .null,
                            update_interval := UPDATE_INTERVAL_INACTIVE }
        (st, .ok (.obj [("ride", .null), ("has_active_ride", .bool false),
                        ("last_update", .num tnow)]))

/-- A tick as driven by the `DataUpdateCoordinator` framework: when the
tick returns, its snapshot becomes `coordinator.data`; when it raises
`UpdateFailed`, the previously published `data` is kept. -/
def tick_and_publish (st : CoordState) (fetch : Except RequestErr (Option Json))
    (receipt : Except RequestErr Json) (mapData : Except RequestErr Json) (tnow : Int) :
    CoordState × Except String Json :=
  match async_update_data st fetch receipt mapData tnow with
  | (st2, .ok d) => ({ st2 with data := some d }, .ok d)
  | (st2, .error m) => (st2, .error m)

-- ## Helper lemmas

theorem bind_ok_eq {ε α β : Type} (a : α) (f : α → Except ε β) :
    (bind (Except.ok a) f : Except ε β) = f a := rfl

theorem bind_error_eq {ε α β : Type} (e : ε) (f : α → Except ε β) :
    (bind (Except.error e) f : Except ε β) = Except.error e := rfl

theorem pure_ok_eq {ε α : Type} (a : α) : (pure a : Except ε α) = Except.ok a := rfl

theorem getD_objEmpty_truthy (o : Option Json) :
    (o.getD (Json.obj [])).truthy = (o.getD Json.null).truthy := by
  cases o <;> rfl

theorem lookupKey_setKey_self (l : List (String × Json)) (k : String) (v : Json) :
    lookupKey (setKey l k v) k = some v := by
  induction l with
  | nil => simp [setKey, lookupKey]
  | cons a rest ih =>
    obtain ⟨ka, va⟩ := a
    by_cases hk : (ka == k) = true
    · simp [setKey, hk, lookupKey]
    · simp only [Bool.not_eq_true] at hk
      simp [setKey, hk, lookupKey, ih]

theorem lookupKey_setKey_ne (l : List (String × Json)) (k k2 : String) (v : Json)
    (h : (k == k2) = false) :
    lookupKey (setKey l k v) k2 = lookupKey l k2 := by
  induction l with
  | nil => simp [setKey, lookupKey, h]
  | cons a rest ih =>
    obtain ⟨ka, va⟩ := a
    by_cases hk : (ka == k) = true
    · have hka : ka = k := by simpa using hk
      subst hka
      simp [setKey, lookupKey, h]
    · simp only [Bool.not_eq_true] at hk
      simp [setKey, hk, lookupKey, ih]

/-- Nested ride-payload components are each either absent or a JSON
object (with arbitrary, possibly missing inner fields). -/
def objOrAbsent (entries : List (String × Json)) (k : String) : Prop :=
  match lookupKey entries k with
  | none => True
  | some (Json.obj _) => True
  | some _ => False

theorem objOrAbsent_shape (entries : List (String × Json)) (k : String)
    (hk : objOrAbsent entries k) :
    ∃ es, (lookupKey entries k).getD (Json.obj []) = Json.obj es := by
  unfold objOrAbsent at hk
  rcases hl : lookupKey entries k with _ | v
  · exact ⟨[], rfl⟩
  · rw [hl] at hk
    cases v with
    | obj es => exact ⟨es, rfl⟩
    | null => exact hk.elim
    | bool b => exact hk.elim
    | num n => exact hk.elim
    | str s => exact hk.elim
    | arr xs => exact hk.elim

/-- Refresh responses whose `expires_in` (when present and numeric) exceeds
the 5-minute safety margin of `is_token_expired`. -/
def goodExpiresIn : PostOutcome → Prop
  | .response _ (.obj entries) =>
      match lookupKey entries "expires_in" with
      | none => True
      | some (Json.num n) => 300 < n
      | some _ => True
  | _ => True

-- ## Claims

/-- C1: the claim says that after 3 consecutive failing ticks the update
interval equals the 300 s error backoff.  The code resets `_error_count`
to 0 at the top of every tick, before the fetch, so each failing tick ends
with the counter at 1 and the backoff never triggers: three consecutive
failing ticks leave the interval at its previous 60 s value. -/
theorem c1_error_backoff_never_triggered :
    (let st0 : CoordState :=
      { error_count := 0, update_interval := UPDATE_INTERVAL_INACTIVE,
        last_status := .null, data := none }
     let fail := fun st => (tick_and_publish st (.error (.uber (.api "boom")))
        (.error (.uber (.api "x"))) (.error (.uber (.api "x"))) 0).1
     let st3 := fail (fail (fail st0))
     st3.update_interval = UPDATE_INTERVAL_INACTIVE ∧
     st3.update_interval ≠ UPDATE_INTERVAL_ERROR ∧
     st3.error_count = 1 ∧ st3.error_count < max_error_count) :=
  ⟨rfl, by decide, rfl, by decide⟩

/-- C2 counterexample: on input with status `"in_progress"` and no
location, `parse_ride_data` sets `progress_percentage` to 0, not 50 as the
claim states (the code requires the location object to be truthy). -/
theorem c2_in_progress_without_location_counterexample :
    (parse_ride_data (.obj [("status", .str "in_progress")])).map
        (fun p => p.dictGet "progress_percentage") = .ok (.num 0) ∧
    Json.num 0 ≠ Json.num 50 :=
  ⟨rfl, by simp⟩

/-- C2 (amended): for every non-empty ride input on which
`parse_ride_data` succeeds, `progress_percentage` is 100 when status is
`"completed"`, 50 when status is `"in_progress"` and the input's location
value is truthy, and 0 otherwise. -/
theorem c2_progress_percentage_amended (rd p : Json) (ht : rd.truthy = true)
    (h : parse_ride_data rd = .ok p) :
    p.dictGet "progress_percentage" = .num
      (if rd.dictGet "status" == Json.str "completed" then 100
       else if (rd.dictGet "status" == Json.str "in_progress")
              && (rd.dictGet "location").truthy then 50
       else 0) := by
  cases rd with
  | null => simp [Json.truthy] at ht
  | bool b =>
      simp only [parse_ride_data, ht, Bool.not_true, Bool.false_eq_true, if_false,
        Json.get, bind_error_eq] at h
      exact Except.noConfusion h
  | num n =>
      simp only [parse_ride_data, ht, Bool.not_true, Bool.false_eq_true, if_false,
        Json.get, bind_error_eq] at h
      exact Except.noConfusion h
  | str s =>
      simp only [parse_ride_data, ht, Bool.not_true, Bool.false_eq_true, if_false,
        Json.get, bind_error_eq] at h
      exact Except.noConfusion h
  | arr xs =>
      simp only [parse_ride_data, ht, Bool.not_true, Bool.false_eq_true, if_false,
        Json.get, bind_error_eq] at h
      exact Except.noConfusion h
  | obj entries =>
      simp only [parse_ride_data, ht, Bool.not_true, Bool.false_eq_true, if_false,
        Json.get, bind_ok_eq, bind_error_eq, pure_ok_eq] at h
      revert h
      rcases hD : (lookupKey entries "driver").getD (Json.obj []) with _ | b | n | s | xs | des
      all_goals simp only [Json.get, bind_ok_eq, bind_error_eq]
      all_goals try (intro h; exact Except.noConfusion h)
      rcases hV : (lookupKey entries "vehicle").getD (Json.obj []) with _ | b | n | s | xs | ves
      all_goals simp only [Json.get, bind_ok_eq, bind_error_eq]
      all_goals try (intro h; exact Except.noConfusion h)
      rcases hP : (lookupKey entries "pickup").getD (Json.obj []) with _ | b | n | s | xs | pes
      all_goals simp only [Json.get, bind_ok_eq, bind_error_eq]
      all_goals try (intro h; exact Except.noConfusion h)
      rcases hDst : (lookupKey entries "destination").getD (Json.obj []) with _ | b | n | s | xs | dstes
      all_goals simp only [Json.get, bind_ok_eq, bind_error_eq]
      all_goals try (intro h; exact Except.noConfusion h)
      rcases hL : (lookupKey entries "location").getD (Json.obj []) with _ | b | n | s | xs | les
      all_goals simp only [Json.get, bind_ok_eq, bind_error_eq]
      all_goals try (intro h; exact Except.noConfusion h)
      intro h
      injection h with h
      subst h
      have hT : (Json.obj les).truthy = ((lookupKey entries "location").getD Json.null).truthy := by
        rw [← hL, getD_objEmpty_truthy]
      simp [Json.dictGet, lookupKey, hT]

/-- C2 witness: a completed ride parses with progress 100. -/
theorem c2_progress_percentage_amended_witness :
    ∃ p, parse_ride_data (.obj [("status", .str "completed")]) = .ok p ∧
      p.dictGet "progress_percentage" = .num 100 := by
  refine ⟨_, rfl, ?_⟩
  exact c2_progress_percentage_amended (.obj [("status", .str "completed")]) _ rfl rfl

/-- C3 counterexample: with no stored refresh token, the refresh fails
with a `ValueError`, an outcome outside the two failure kinds the claim
allows (authentication error on non-2xx, transient network error). -/
theorem c3_value_error_counterexample :
    async_refresh_access_token [] 0 (.response 200 (.obj [])) =
      .error (.valueError "No refresh token available") := rfl

/-- C3 (amended): the refresh operation fails with `ValueError` when no
refresh token is stored, with the transport library's response error
(carrying the HTTP status, not the body) on a non-2xx response, with the
transport's client error on transport failure, and with an unhandled
Python exception on a malformed response body; it raises no
integration-specific authentication or network error type. -/
theorem c3_refresh_failure_taxonomy_amended (td : TokenData) (now : Int)
    (out : PostOutcome) (e : RefreshErr)
    (h : async_refresh_access_token td now out = .error e) :
    ((refresh_token td).truthy = false ∧ e = .valueError "No refresh token available") ∨
    (∃ status body, out = .response status body ∧ 400 ≤ status ∧
        e = .clientError (.responseError status "HTTP error")) ∨
    (∃ m, out = .transportFailure m ∧ e = .clientError (.transport m)) ∨
    (∃ perr, e = .pyError perr) := by
  unfold async_refresh_access_token at h
  by_cases hr : (refresh_token td).truthy = true
  · simp only [hr, Bool.not_true, Bool.false_eq_true, if_false] at h
    rcases out with ⟨status, body⟩ | m
    · by_cases hs : 400 ≤ status
      · simp only [hs, if_true] at h
        injection h with h
        exact Or.inr (Or.inl ⟨status, body, rfl, hs, h.symm⟩)
      · simp only [hs, if_false] at h
        cases body with
        | obj entries =>
          by_cases hc : containsKey entries "refresh_token" = true
          all_goals simp only [hc, Bool.not_eq_true, if_true, if_false] at h
          all_goals rcases he : (lookupKey entries "expires_in").getD (Json.num 3600)
              with _ | b2 | ein | s2 | xs2 | oes
          all_goals rw [he] at h
          all_goals try exact Except.noConfusion h
          all_goals injection h with h
          all_goals exact Or.inr (Or.inr (Or.inr ⟨.typeError, h.symm⟩))
        | null => injection h with h; exact Or.inr (Or.inr (Or.inr ⟨.attributeError, h.symm⟩))
        | bool b => injection h with h; exact Or.inr (Or.inr (Or.inr ⟨.attributeError, h.symm⟩))
        | num n => injection h with h; exact Or.inr (Or.inr (Or.inr ⟨.attributeError, h.symm⟩))
        | str s => injection h with h; exact Or.inr (Or.inr (Or.inr ⟨.attributeError, h.symm⟩))
        | arr xs => injection h with h; exact Or.inr (Or.inr (Or.inr ⟨.attributeError, h.symm⟩))
    · injection h with h
      exact Or.inr (Or.inr (Or.inl ⟨m, rfl, h.symm⟩))
  · simp only [Bool.not_eq_true] at hr
    simp only [hr, Bool.not_false, if_true] at h
    injection h with h
    exact Or.inl ⟨hr, h.symm⟩

/-- C3 witness: the taxonomy theorem applied to the empty token store. -/
theorem c3_refresh_failure_taxonomy_amended_witness :
    ((refresh_token ([] : TokenData)).truthy = false ∧
      RefreshErr.valueError "No refresh token available"
        = .valueError "No refresh token available") ∨
    (∃ status body, PostOutcome.response 200 (.obj []) = .response status body ∧
        400 ≤ status ∧
        RefreshErr.valueError "No refresh token available"
          = .clientError (.responseError status "HTTP error")) ∨
    (∃ m, PostOutcome.response 200 (.obj []) = .transportFailure m ∧
        RefreshErr.valueError "No refresh token available" = .clientError (.transport m)) ∨
    (∃ perr, RefreshErr.valueError "No refresh token available" = .pyError perr) :=
  c3_refresh_failure_taxonomy_amended [] 0 (.response 200 (.obj []))
    (.valueError "No refresh token available") rfl

/-- C4 counterexample: with an expired store and a refresh response whose
`expires_in` is 60 s (below the 5-minute margin), `ensure_valid` returns a
token whose expiry minus the margin is already in the past (1060 - 300 <
1000), and the token is still considered expired immediately afterwards,
so an immediate second call performs a second refresh. -/
theorem c4_short_expiry_counterexample :
    async_ensure_valid_token [("refresh_token", .str "r")] 1000
        (.response 200 (.obj [("access_token", .str "a"), ("expires_in", .num 60)]))
      = .ok (true, [("refresh_token", .str "r"), ("access_token", .str "a"),
                    ("token_expires", .num 1060)], .str "a") ∧
    is_token_expired [("refresh_token", .str "r"), ("access_token", .str "a"),
                      ("token_expires", .num 1060)] 1000 = true :=
  ⟨rfl, rfl⟩

/-- C4 (amended): provided every refresh response's `expires_in` exceeds
the 300 s safety margin (or is omitted, defaulting to 3600 s), a
successful `ensure_valid` leaves a token that is not expired under the
5-minute margin, and an immediate second call performs no further refresh
and returns the same state and token. -/
theorem c4_ensure_valid_amended (td : TokenData) (now : Int) (out out2 : PostOutcome)
    (hg : goodExpiresIn out) (refreshed : Bool) (td2 : TokenData) (tok : Json)
    (h : async_ensure_valid_token td now out = .ok (refreshed, td2, tok)) :
    is_token_expired td2 now = false ∧
    async_ensure_valid_token td2 now out2 = .ok (false, td2, access_token td2) := by
  have hexp : is_token_expired td2 now = false := by
    unfold async_ensure_valid_token at h
    by_cases he : is_token_expired td now = true
    · simp only [he, if_true] at h
      rcases hrf : async_refresh_access_token td now out with err | td3
      · rw [hrf] at h; exact Except.noConfusion h
      · rw [hrf] at h
        injection h with h
        injection h with h1 h
        injection h with h2 h3
        subst h2
        unfold async_refresh_access_token at hrf
        by_cases hr : (refresh_token td).truthy = true
        · simp only [hr, Bool.not_true, Bool.false_eq_true, if_false] at hrf
          rcases out with ⟨status, body⟩ | m
          · by_cases hs : 400 ≤ status
            · simp only [hs, if_true] at hrf
              exact Except.noConfusion hrf
            · simp only [hs, if_false] at hrf
              cases body with
              | null => exact Except.noConfusion hrf
              | bool b => exact Except.noConfusion hrf
              | num n => exact Except.noConfusion hrf
              | str s => exact Except.noConfusion hrf
              | arr xs => exact Except.noConfusion hrf
              | obj entries =>
                dsimp only at hrf
                unfold goodExpiresIn at hg
                dsimp only at hg
                rcases he2 : lookupKey entries "expires_in" with _ | v
                · rw [he2] at hrf
                  simp only [Option.getD_none] at hrf
                  injection hrf with hrf
                  subst hrf
                  simp only [is_token_expired, lookupKey_setKey_self]
                  simp only [decide_eq_false_iff_not]
                  omega
                · rw [he2] at hg
                  rcases v with _ | b2 | ein | s2 | xs2 | oes
                  all_goals rw [he2] at hrf
                  all_goals simp only [Option.getD_some] at hrf
                  all_goals try exact Except.noConfusion hrf
                  injection hrf with hrf
                  subst hrf
                  simp only [is_token_expired, lookupKey_setKey_self]
                  simp only [decide_eq_false_iff_not]
                  simp only [goodExpiresIn] at hg
                  omega
          · exact Except.noConfusion hrf
        · simp only [Bool.not_eq_true] at hr
          simp only [hr, Bool.not_false, if_true] at hrf
          exact Except.noConfusion hrf
    · simp only [he, Bool.false_eq_true, if_false] at h
      injection h with h
      injection h with h1 h
      injection h with h2 h3
      subst h2
      simpa using he
  refine ⟨hexp, ?_⟩
  unfold async_ensure_valid_token
  simp [hexp]

/-- C4 witness: a still-valid store is returned unrefreshed and stays
valid on an immediate second call. -/
theorem c4_ensure_valid_amended_witness :
    is_token_expired [("token_expires", .num 5000)] 1000 = false ∧
    async_ensure_valid_token [("token_expires", .num 5000)] 1000 (.transportFailure "x") =
      .ok (false, [("token_expires", .num 5000)],
           access_token [("token_expires", .num 5000)]) :=
  c4_ensure_valid_amended [("token_expires", .num 5000)] 1000
    (.response 200 (.obj [])) (.transportFailure "x") trivial false
    [("token_expires", .num 5000)] (access_token [("token_expires", .num 5000)]) rfl

/-- C5: when the current-ride endpoint answers HTTP 404 (with any body and
headers) and the rate-limit budget allows the call, the tick publishes
`has_active_ride = false`, raises no error signal, and sets the poll
interval to the 60 s inactive baseline. -/
theorem c5_http404_yields_inactive_no_error (rl : RateLimitState) (now : Int)
    (body : Json) (hrem hres : Option Int) (st : CoordState)
    (receipt mapData : Except RequestErr Json) (tnow : Int)
    (hbudget : 0 < rl.remaining) :
    tick_and_publish st (async_get_current_ride rl now (.response 404 body hrem hres)).2
        receipt mapData tnow =
      ({ error_count := 0, update_interval := UPDATE_INTERVAL_INACTIVE,
         last_status := .null,
         data := some (.obj [("ride", .null), ("has_active_ride", .bool false),
                             ("last_update", .num tnow)]) },
       .ok (.obj [("ride", .null), ("has_active_ride", .bool false),
                  ("last_update", .num tnow)])) := by
  have hb : ¬ rl.remaining ≤ 0 := by omega
  have hfetch : (async_get_current_ride rl now (.response 404 body hrem hres)).2
      = .ok none := by
    simp [async_get_current_ride, async_request, hb, handleResponse]
  rw [hfetch]
  rfl

/-- C5 witness: the 404 tick evaluated on a concrete state. -/
theorem c5_http404_yields_inactive_no_error_witness :
    tick_and_publish
        { error_count := 2, update_interval := UPDATE_INTERVAL_ACTIVE,
          last_status := .str "accepted", data := none }
        (async_get_current_ride { remaining := 5, reset := 0 } 0
            (.response 404 (.obj []) none none)).2
        (.error (.uber (.api "x"))) (.error (.uber (.api "x"))) 7 =
      ({ error_count := 0, update_interval := UPDATE_INTERVAL_INACTIVE,
         last_status := .null,
         data := some (.obj [("ride", .null), ("has_active_ride", .bool false),
                             ("last_update", .num 7)]) },
       .ok (.obj [("ride", .null), ("has_active_ride", .bool false),
                  ("last_update", .num 7)])) :=
  c5_http404_yields_inactive_no_error { remaining := 5, reset := 0 } 0 (.obj [])
    none none
    { error_count := 2, update_interval := UPDATE_INTERVAL_ACTIVE,
      last_status := .str "accepted", data := none }
    (.error (.uber (.api "x"))) (.error (.uber (.api "x"))) 7 (by norm_num)

/-- C6: while the local budget is exhausted and the window has not
elapsed, every request fails fast with the rate-limit error, independent
of the would-be HTTP outcome (no call is made); once the window has
elapsed, the request proceeds with the budget reset to the full call
count and a fresh window. -/
theorem c6_rate_limit_gate (st : RateLimitState) (now : Int) (endpoint : String)
    (out : HttpOutcome) (hex : st.remaining ≤ 0) :
    (now < st.reset →
      async_request st now endpoint out =
        (st, .error (.uber (.rateLimit
          ("Rate limited for " ++ toString (st.reset - now) ++ " seconds"))))) ∧
    (st.reset ≤ now →
      async_request st now endpoint out =
        handleResponse { remaining := RATE_LIMIT_CALLS, reset := now + RATE_LIMIT_WINDOW }
          endpoint out) := by
  constructor
  · intro hlt
    simp [async_request, hex, hlt]
  · intro hge
    have hnlt : ¬ now < st.reset := by omega
    simp [async_request, hex, hnlt]

/-- C6 witness: the gate evaluated with an exhausted budget inside the
window. -/
theorem c6_rate_limit_gate_witness :
    async_request { remaining := 0, reset := 100 } 50 "/x" .timeout =
      ({ remaining := 0, reset := 100 },
       .error (.uber (.rateLimit "Rate limited for 50 seconds"))) :=
  (c6_rate_limit_gate { remaining := 0, reset := 100 } 50 "/x" .timeout
    (by norm_num)).1 (by norm_num)

/-- C7: on a successful tick with a parsed ride, the next poll interval is
10 s exactly when the normalized status is in the active-ride set and
60 s otherwise; a tick observing no ride sets 60 s. -/
theorem c7_interval_from_status (st : CoordState) (rd p : Json)
    (receipt mapData : Except RequestErr Json) (tnow : Int)
    (ht : rd.truthy = true) (hp : parse_ride_data rd = .ok p) :
    ((async_update_data st (.ok (some rd)) receipt mapData tnow).1.update_interval =
       if inActiveStatuses (p.dictGet "status") then UPDATE_INTERVAL_ACTIVE
       else UPDATE_INTERVAL_INACTIVE) ∧
    (async_update_data st (.ok none) receipt mapData tnow).1.update_interval =
       UPDATE_INTERVAL_INACTIVE := by
  constructor
  · simp only [async_update_data, Option.getD_some, ht, hp]
    by_cases hA : inActiveStatuses (p.dictGet "status") = true
    · simp only [hA, if_true]
      by_cases hR : (p.dictGet "request_id").truthy = true
      · simp only [hR, if_true]
        rcases receipt with re | rv
        · rcases re with rue | rpe
          · rcases mapData with me | mv
            · rcases me with mue | mpe
              · simp [publishRide]
              · simp [coordinatorErrorStep, max_error_count, apply_ite]
            · simp [publishRide]
          · simp [coordinatorErrorStep, max_error_count, apply_ite]
        · rcases mapData with me | mv
          · rcases me with mue | mpe
            · simp [publishRide]
            · simp [coordinatorErrorStep, max_error_count, apply_ite]
          · simp [publishRide]
      · simp [hR, publishRide]
    · simp [hA, publishRide]
  · rfl

/-- C7 witness: an arriving ride switches the interval per the active
set. -/
theorem c7_interval_from_status_witness :
    ∃ p, parse_ride_data (.obj [("status", .str "arriving")]) = .ok p ∧
      (async_update_data
          { error_count := 0, update_interval := UPDATE_INTERVAL_INACTIVE,
            last_status := .null, data := none }
          (.ok (some (.obj [("status", .str "arriving")])))
          (.error (.uber (.api "x"))) (.error (.uber (.api "x"))) 0).1.update_interval =
        (if inActiveStatuses (p.dictGet "status") then UPDATE_INTERVAL_ACTIVE
         else UPDATE_INTERVAL_INACTIVE) := by
  refine ⟨_, rfl, ?_⟩
  exact (c7_interval_from_status
    { error_count := 0, update_interval := UPDATE_INTERVAL_INACTIVE,
      last_status := .null, data := none }
    (.obj [("status", .str "arriving")]) _
    (.error (.uber (.api "x"))) (.error (.uber (.api "x"))) 0 rfl rfl).1

/-- C8: `parse_ride_data` maps `None` and the empty dict to the empty
record, and succeeds without raising on every input whose nested
components (driver, vehicle, location, pickup, destination) are absent or
objects with arbitrary missing inner fields. -/
theorem c8_parse_ride_data_total :
    parse_ride_data .null = .ok (.obj []) ∧
    parse_ride_data (.obj []) = .ok (.obj []) ∧
    ∀ entries : List (String × Json),
      objOrAbsent entries "driver" → objOrAbsent entries "vehicle" →
      objOrAbsent entries "location" → objOrAbsent entries "pickup" →
      objOrAbsent entries "destination" →
      ∃ p, parse_ride_data (.obj entries) = .ok p := by
  refine ⟨rfl, rfl, ?_⟩
  intro entries h1 h2 h3 h4 h5
  obtain ⟨des, hD⟩ := objOrAbsent_shape entries "driver" h1
  obtain ⟨ves, hV⟩ := objOrAbsent_shape entries "vehicle" h2
  obtain ⟨les, hL⟩ := objOrAbsent_shape entries "location" h3
  obtain ⟨pes, hP⟩ := objOrAbsent_shape entries "pickup" h4
  obtain ⟨dstes, hDst⟩ := objOrAbsent_shape entries "destination" h5
  by_cases he : (Json.obj entries).truthy = true
  · simp only [parse_ride_data, he, Bool.not_true, Bool.false_eq_true, if_false,
      Json.get, hD, hV, hL, hP, hDst, bind_ok_eq, pure_ok_eq]
    exact ⟨_, rfl⟩
  · simp only [Bool.not_eq_true] at he
    exact ⟨.obj [], by simp [parse_ride_data, he, pure_ok_eq]⟩

/-- C8 witness: a partial payload with a partial driver object parses. -/
theorem c8_parse_ride_data_total_witness :
    ∃ p, parse_ride_data (.obj [("status", .str "accepted"),
        ("driver", .obj [("name", .str "Ann")])]) = .ok p :=
  c8_parse_ride_data_total.2.2
    [("status", .str "accepted"), ("driver", .obj [("name", .str "Ann")])]
    trivial trivial trivial trivial trivial

/-- C9 counterexample: a tick whose current-ride fetch succeeds with an
active ride but whose receipt fetch raises a non-`UberAPIError` Python
exception fails via `except Exception` after `_last_status` was already
set to the observed status and the interval switched to the active
baseline, so a failing tick can mutate the last-known status and the
interval without reaching the error threshold. -/
theorem c9_detail_fetch_mutation_counterexample :
    tick_and_publish
        { error_count := 0, update_interval := UPDATE_INTERVAL_INACTIVE,
          last_status := .null, data := none }
        (.ok (some (.obj [("status", .str "accepted"), ("request_id", .str "r1")])))
        (.error (.py .attributeError)) (.error (.uber (.api "x"))) 0 =
      ({ error_count := 1, update_interval := UPDATE_INTERVAL_ACTIVE,
         last_status := .str "accepted", data := none },
       .error "Unexpected error: AttributeError") ∧
    Json.str "accepted" ≠ Json.null :=
  ⟨rfl, by simp⟩

/-- C9 (amended): every failing tick leaves the published data snapshot
unchanged; when the failure comes from the current-ride fetch itself or
from parsing the ride payload — i.e. before the opportunistic detail
fetches — the last-known ride status is also unchanged.  A failing tick
caused by a non-`UberAPIError` exception in a detail fetch has, by then,
already recorded the observed status and the active interval. -/
theorem c9_error_path_frame_amended (st st2 : CoordState)
    (fetch : Except RequestErr (Option Json))
    (receipt mapData : Except RequestErr Json) (tnow : Int) (msg : String)
    (h : tick_and_publish st fetch receipt mapData tnow = (st2, .error msg)) :
    st2.data = st.data ∧
    (∀ e, fetch = .error e → st2.last_status = st.last_status) ∧
    (∀ rd perr, fetch = .ok (some rd) → parse_ride_data rd = .error perr →
        st2.last_status = st.last_status) := by
  refine ⟨?_, ?_, ?_⟩
  · unfold tick_and_publish async_update_data coordinatorErrorStep publishRide at h
    rcases fetch with e | rideOpt
    · rcases e with ue | pe
      · rcases ue with m | m | m | m
        · injection h with h1 h2
          subst h1
          split <;> rfl
        · injection h with h1 h2
          subst h1
          split <;> rfl
        · simp at h
        · injection h with h1 h2
          subst h1
          split <;> rfl
      · injection h with h1 h2
        subst h1
        split <;> rfl
    · rcases rideOpt with _ | rd
      · simp [Json.truthy] at h
      · by_cases hrt : rd.truthy = true
        · rcases hp : parse_ride_data rd with perr | parsed
          · simp only [Option.getD_some, hrt, hp] at h
            injection h with h1 h2
            subst h1
            split <;> rfl
          · simp only [Option.getD_some, hrt, hp] at h
            by_cases hA : inActiveStatuses (parsed.dictGet "status") = true
            · simp only [hA, if_true] at h
              by_cases hR : (parsed.dictGet "request_id").truthy = true
              · simp only [hR, if_true] at h
                rcases receipt with re | rv
                · rcases re with rue | rpe
                  · rcases mapData with me | mv
                    · rcases me with mue | mpe
                      · simp at h
                      · injection h with h1 h2
                        subst h1
                        split <;> rfl
                    · simp at h
                  · injection h with h1 h2
                    subst h1
                    split <;> rfl
                · rcases mapData with me | mv
                  · rcases me with mue | mpe
                    · simp at h
                    · injection h with h1 h2
                      subst h1
                      split <;> rfl
                  · simp at h
              · simp [hR] at h
            · simp [hA] at h
        · simp only [Bool.not_eq_true] at hrt
          simp only [Option.getD_some, hrt] at h
          simp at h
  · intro e he
    subst he
    unfold tick_and_publish async_update_data coordinatorErrorStep at h
    rcases e with ue | pe
    · rcases ue with m | m | m | m
      · injection h with h1 h2
        subst h1
        split <;> rfl
      · injection h with h1 h2
        subst h1
        split <;> rfl
      · simp at h
      · injection h with h1 h2
        subst h1
        split <;> rfl
    · injection h with h1 h2
      subst h1
      split <;> rfl
  · intro rd perr hf hp2
    subst hf
    by_cases hrt : rd.truthy = true
    · unfold tick_and_publish async_update_data coordinatorErrorStep at h
      simp only [Option.getD_some, hrt, hp2] at h
      injection h with h1 h2
      subst h1
      split <;> rfl
    · simp only [Bool.not_eq_true] at hrt
      simp [parse_ride_data, hrt, pure_ok_eq] at hp2

/-- C9 witness: the amended frame property applied to a concrete tick
failing at the current-ride fetch. -/
theorem c9_error_path_frame_amended_witness :
    ({ error_count := 1, update_interval := UPDATE_INTERVAL_ACTIVE,
       last_status := .str "accepted", data := some (.obj []) } : CoordState).data =
      ({ error_count := 0, update_interval := UPDATE_INTERVAL_ACTIVE,
         last_status := .str "accepted", data := some (.obj []) } : CoordState).data ∧
    (∀ e, (.error (.uber (.api "boom")) : Except RequestErr (Option Json)) = .error e →
      ({ error_count := 1, update_interval := UPDATE_INTERVAL_ACTIVE,
         last_status := .str "accepted", data := some (.obj []) } : CoordState).last_status =
        ({ error_count := 0, update_interval := UPDATE_INTERVAL_ACTIVE,
           last_status := .str "accepted", data := some (.obj []) } : CoordState).last_status) ∧
    (∀ rd perr,
        (.error (.uber (.api "boom")) : Except RequestErr (Option Json)) = .ok (some rd) →
        parse_ride_data rd = .error perr →
      ({ error_count := 1, update_interval := UPDATE_INTERVAL_ACTIVE,
         last_status := .str "accepted", data := some (.obj []) } : CoordState).last_status =
        ({ error_count := 0, update_interval := UPDATE_INTERVAL_ACTIVE,
           last_status := .str "accepted", data := some (.obj []) } : CoordState).last_status) :=
  c9_error_path_frame_amended
    { error_count := 0, update_interval := UPDATE_INTERVAL_ACTIVE,
      last_status := .str "accepted", data := some (.obj []) }
    { error_count := 1, update_interval := UPDATE_INTERVAL_ACTIVE,
      last_status := .str "accepted", data := some (.obj []) }
    (.error (.uber (.api "boom"))) (.error (.uber (.api "x"))) (.error (.uber (.api "x"))) 0
    "Error communicating with Uber API: boom" rfl

/-- C10: a successful refresh whose response omits `refresh_token` leaves
the stored refresh token unchanged and overwrites only the access token
and the expiry. -/
theorem c10_refresh_token_preserved (td : TokenData) (now : Int) (status : Nat)
    (entries : List (String × Json)) (td2 : TokenData)
    (habs : containsKey entries "refresh_token" = false)
    (h : async_refresh_access_token td now (.response status (.obj entries)) = .ok td2) :
    lookupKey td2 CONF_REFRESH_TOKEN = lookupKey td CONF_REFRESH_TOKEN ∧
    ∃ a e, td2 = setKey (setKey td CONF_ACCESS_TOKEN a) CONF_TOKEN_EXPIRES e := by
  unfold async_refresh_access_token at h
  by_cases hr : (refresh_token td).truthy = true
  · simp only [hr, Bool.not_true, Bool.false_eq_true, if_false] at h
    by_cases hs : 400 ≤ status
    · simp [hs] at h
    · simp only [hs, if_false] at h
      rw [habs] at h
      simp only [Bool.false_eq_true, if_false] at h
      rcases he : (lookupKey entries "expires_in").getD (Json.num 3600)
          with _ | b | ein | s | xs | oes
      all_goals rw [he] at h
      all_goals try exact Except.noConfusion h
      injection h with h
      subst h
      constructor
      · rw [lookupKey_setKey_ne _ _ _ _ (by rfl), lookupKey_setKey_ne _ _ _ _ (by rfl)]
      · exact ⟨_, _, rfl⟩
  · simp only [Bool.not_eq_true] at hr
    simp [hr] at h

/-- C10 witness: a concrete refresh without a new refresh token. -/
theorem c10_refresh_token_preserved_witness :
    lookupKey [("refresh_token", .str "oldR"), ("access_token", .str "newA"),
               ("token_expires", .num 3700)] CONF_REFRESH_TOKEN =
      lookupKey [("refresh_token", .str "oldR")] CONF_REFRESH_TOKEN ∧
    ∃ a e, [("refresh_token", Json.str "oldR"), ("access_token", Json.str "newA"),
            ("token_expires", Json.num 3700)] =
      setKey (setKey [("refresh_token", Json.str "oldR")] CONF_ACCESS_TOKEN a)
        CONF_TOKEN_EXPIRES e :=
  c10_refresh_token_preserved [("refresh_token", .str "oldR")] 100 200
    [("access_token", .str "newA")]
    [("refresh_token", .str "oldR"), ("access_token", .str "newA"),
     ("token_expires", .num 3700)]
    rfl rfl

end UberRideTracker
